import Mathlib

/-!
Shallow embedding of the byteforce-space-plaid server (src/server/index.js).

The server is a set of HTTP handlers over two SQLite tables (items, cursors),
a JSON dashboard file, and an external aggregation API (Plaid).  We embed:

* the data model (items rows, cursors rows, plaid response shapes),
* JavaScript truthiness coalescing (`x || y`, with "" falsy) as it is used
  by the code,
* the snapshot builder fetchItemSnapshot (lines 64-162),
* the sync loops and their handlers (sync, sync-all; lines 232-292),
* the exchange handler and insertItem (lines 34-37, 211-223),
* the balances handler with its undefined-variable primary branch
  (lines 354-375),
* the dashboard refresh handler (lines 484-521).

The external API is a record of pure functions; a call that throws is an
`Except.error`.  Unbounded loops (do/while pagination, has_more sync loops)
take a fuel parameter and return `none` (or a `spin` marker) when fuel runs
out, so that non-termination for every fuel is expressible.  Database writes
are explicit state passing on a `DB` value; the dashboard file is an explicit
`Option DashData` value.  Numeric JSON payloads are embedded as `Int`,
opaque JSON objects (account balances) as association lists.
-/

/-- JavaScript string truthiness: `s || ...` treats undefined, null and ""
as falsy.  `jsStr x` is `some` exactly when the optional string is truthy. -/
def jsStr (s : Option String) : Option String :=
  match s with
  | some t => if t = "" then none else some t
  | none => none

/-- JavaScript `a || b || ... || d` over optional strings with a final plain
default: the first truthy entry of `l`, else `d`. -/
def firstTruthy (l : List (Option String)) (d : String) : String :=
  match l.filterMap jsStr with
  | [] => d
  | s :: _ => s

/-- Transaction as delivered by the aggregation API (fields the code reads). -/
structure Tx where
  account_id : String
  date : String
  name : Option String
  merchant_name : Option String
  payee : Option String
  amount : Int
  category : Option (List String)
deriving DecidableEq, Repr

/-- Balances object: opaque JSON object, embedded as an association list. -/
abbrev Bal := List (String × Int)

/-- Account as delivered by the aggregation API (fields the code reads). -/
structure Account where
  account_id : String
  name : Option String
  official_name : Option String
  mask : Option String
  type : Option String
  subtype : Option String
  balances : Option Bal
deriving DecidableEq, Repr

/-- Credit liability entry (`L.data.liabilities?.credit`). -/
structure Apr where
  apr_percentage : Option Int
deriving DecidableEq, Repr

structure CreditL where
  account_id : String
  apr : Option Apr
  minimum_payment_amount : Option Int
  next_payment_due_date : Option String
deriving DecidableEq, Repr

structure StudentL where
  account_id : String
  interest_rate_percentage : Option Int
  minimum_payment_amount : Option Int
  next_payment_due_date : Option String
deriving DecidableEq, Repr

structure IntRate where
  percentage : Option Int
deriving DecidableEq, Repr

structure MortgageL where
  account_id : String
  interest_rate : Option IntRate
  next_monthly_payment : Option Int
  next_payment_due_date : Option String
deriving DecidableEq, Repr

/-- Liabilities response body (`L.data.liabilities`, each sub-list possibly
absent). -/
structure Liabs where
  credit : Option (List CreditL)
  student : Option (List StudentL)
  mortgage : Option (List MortgageL)
deriving DecidableEq, Repr

/-- The per-account liability record built by fetchItemSnapshot, lines 91-109. -/
structure LiabRec where
  apr_percentage : Option Int
  minimum_payment_amount : Option Int
  next_payment_due_date : Option String
deriving DecidableEq, Repr

/-- Assignment `liabByAccount[k] = v` on a JS object: replace or append. -/
def putLiab (m : List (String × LiabRec)) (k : String) (v : LiabRec) :
    List (String × LiabRec) :=
  if m.any (fun p => p.1 == k) then
    m.map (fun p => if p.1 == k then (k, v) else p)
  else m ++ [(k, v)]

/-- Lines 90-110: the liability map keyed by account_id, credit then student
then mortgage entries, later assignments overwriting earlier ones. -/
def buildLiabMap (L : Liabs) : List (String × LiabRec) :=
  let m1 := (L.credit.getD []).foldl
    (fun m c => putLiab m c.account_id
      ⟨(c.apr.bind Apr.apr_percentage), c.minimum_payment_amount,
        c.next_payment_due_date⟩) []
  let m2 := (L.student.getD []).foldl
    (fun m s => putLiab m s.account_id
      ⟨s.interest_rate_percentage, s.minimum_payment_amount,
        s.next_payment_due_date⟩) m1
  (L.mortgage.getD []).foldl
    (fun m mg => putLiab m mg.account_id
      ⟨some ((mg.interest_rate.bind IntRate.percentage).getD 0),
        mg.next_monthly_payment, mg.next_payment_due_date⟩) m2

/-- Lookup `liabByAccount[k] || null` (line 145): missing key is null. -/
def liabLookup (m : List (String × LiabRec)) (k : String) : Option LiabRec :=
  (m.find? (fun p => p.1 == k)).map Prod.snd

/-- `new Map(accounts.map(a => [a.account_id, a]))` then `.get` (lines 115,
150): on duplicate keys the later entry wins. -/
def acctMapGet (accounts : List Account) (id : String) : Option Account :=
  accounts.foldl (fun r a => if a.account_id == id then some a else r) none

/-- One page of the offset-paginated transactionsGet response (lines 124-128). -/
structure TxPage where
  total_transactions : Nat
  transactions : List Tx
deriving DecidableEq, Repr

/-- Lines 122-131: the do/while offset pagination loop of fetchItemSnapshot.
`pageAt o` is the upstream response to a request at offset `o`; an
`Except.error` is a thrown call, which the surrounding catch turns into
"keep what was accumulated".  Fuel bounds the iteration count; `none` means
the loop did not finish within the given fuel. -/
def txFetch (pageAt : Nat → Except Unit TxPage) :
    Nat → Nat → List Tx → Option (List Tx)
  | 0, _, _ => none
  | fuel+1, offset, acc =>
    match pageAt offset with
    | .error _ => some acc
    | .ok p =>
      if offset + p.transactions.length < p.total_transactions then
        txFetch pageAt fuel (offset + p.transactions.length)
          (acc ++ p.transactions)
      else some (acc ++ p.transactions)

/-- Concatenation of `n` successive pages starting at offset `o`, each page
advancing the offset by its own length (the reference shape of what the
pagination loop accumulates). -/
def pagesFrom (pageAt : Nat → Except Unit TxPage) : Nat → Nat → List Tx
  | 0, _ => []
  | n+1, o =>
    match pageAt o with
    | .error _ => []
    | .ok p => p.transactions ++ pagesFrom pageAt n (o + p.transactions.length)

/-- Incremental sync response (`transactionsSync`, lines 243-253). -/
structure SyncResp where
  added : List Tx
  modified : List Tx
  removed : List Tx
  next_cursor : String
  has_more : Bool
deriving DecidableEq, Repr

/-- The external aggregation API as a record of pure calls; `Except.error` is
a thrown call. -/
structure Upstream where
  accountsBalanceGet : String → Except Unit (List Account)
  accountsGet : String → Except Unit (List Account)
  liabilitiesGet : String → Except Unit Liabs
  transactionsGet : String → Nat → Except Unit TxPage
  transactionsSync : String → Option String → Except Unit SyncResp
  transactionsRefresh : String → Except Unit Unit
  itemPublicTokenExchange : String → Except Unit (String × String)

/-- One row of the items table. -/
structure Row where
  item_id : String
  access_token : String
  institution_name : Option String
deriving DecidableEq, Repr

/-- The mutable database: items rows and cursors rows (item_id, cursor). -/
structure DB where
  items : List Row
  cursors : List (String × String)
deriving DecidableEq, Repr

/-- Reshaped account record (lines 137-146). -/
structure AccountOut where
  institution : String
  name : String
  nickname : String
  mask : String
  type : String
  subtype : String
  balances : Bal
  liability : Option LiabRec
deriving DecidableEq, Repr

/-- Reshaped transaction record (lines 149-159). -/
structure TxOut where
  date : String
  name : String
  amount : Int
  category : List String
  institution : String
  nickname : String
deriving DecidableEq, Repr

/-- Result of fetchItemSnapshot. -/
structure Snapshot where
  accounts : List AccountOut
  transactions : List TxOut
  error : Option String
deriving DecidableEq, Repr

/-- Lines 137-146: shape one account record. -/
def shapeAccount (instName : String) (liabMap : List (String × LiabRec))
    (a : Account) : AccountOut :=
  { institution := instName
    name := firstTruthy [a.name, a.official_name, a.mask] a.account_id
    nickname := firstTruthy [a.official_name] ""
    mask := firstTruthy [a.mask] ""
    type := firstTruthy [a.type] ""
    subtype := firstTruthy [a.subtype] ""
    balances := a.balances.getD []
    liability := liabLookup liabMap a.account_id }

/-- Lines 149-159: shape one transaction record, looking the account up in
the account map (`a?.name || a?.official_name || ''`). -/
def shapeTx (instName : String) (accounts : List Account) (t : Tx) : TxOut :=
  let a := acctMapGet accounts t.account_id
  { date := t.date
    name := firstTruthy [t.name, t.merchant_name, t.payee] ""
    amount := t.amount
    category := t.category.getD []
    institution := instName
    nickname := firstTruthy [a.bind Account.name, a.bind Account.official_name] "" }

/-- Lines 87-113: the best-effort liability map (empty on a thrown call). -/
def liabMapOf (up : Upstream) (tok : String) : List (String × LiabRec) :=
  match up.liabilitiesGet tok with
  | .ok L => buildLiabMap L
  | .error _ => []

/-- Lines 86-161 of fetchItemSnapshot, after the accounts step produced
`accounts`: liabilities (best-effort), transaction pagination (with catch),
and the reshape of both lists.  `none` is a run whose pagination loop never
finishes within the fuel. -/
def snapshotCore (up : Upstream) (fuel : Nat) (row : Row)
    (accounts : List Account) : Option Snapshot :=
  match txFetch (up.transactionsGet row.access_token) fuel 0 [] with
  | none => none
  | some tx =>
    some { accounts := accounts.map
             (shapeAccount (firstTruthy [row.institution_name] "")
               (liabMapOf up row.access_token))
           transactions := tx.map
             (shapeTx (firstTruthy [row.institution_name] "") accounts)
           error := none }

/-- Lines 64-162: fetchItemSnapshot.  Accounts with balances, falling back to
accounts without balances (balances defaulted to the empty object, line 78),
and on double failure the minimal snapshot flagged accounts_failed (line 82). -/
def fetchItemSnapshot (up : Upstream) (fuel : Nat) (row : Row) :
    Option Snapshot :=
  match up.accountsBalanceGet row.access_token with
  | .ok accounts => snapshotCore up fuel row accounts
  | .error _ =>
    match up.accountsGet row.access_token with
    | .ok accs2 =>
      snapshotCore up fuel row
        (accs2.map (fun a => { a with balances := some (a.balances.getD []) }))
    | .error _ =>
      some { accounts := [], transactions := [], error := some "accounts_failed" }

/-- Read `getCursor.get(item_id)?.cursor || null` (line 239): the stored
cursor row for the item, with a falsy (empty) stored cursor read as null. -/
def getCursorVal (cursors : List (String × String)) (id : String) :
    Option String :=
  match (cursors.find? (fun p => p.1 == id)).map Prod.snd with
  | some c => if c = "" then none else some c
  | none => none

/-- Lines 38-41: `INSERT INTO cursors ... ON CONFLICT(item_id) DO UPDATE`. -/
def upsertCursor (cursors : List (String × String)) (id cur : String) :
    List (String × String) :=
  if cursors.any (fun p => p.1 == id) then
    cursors.map (fun p => if p.1 == id then (id, cur) else p)
  else cursors ++ [(id, cur)]

/-- Lines 34-37: `INSERT OR IGNORE INTO items` under the unique item_id
constraint: a duplicate insert is silently dropped. -/
def insertItem (items : List Row) (r : Row) : List Row :=
  if items.any (fun x => x.item_id == r.item_id) then items
  else items ++ [r]

/-- Outcome of a fuel-bounded loop: finished with a value, aborted by a
thrown call, or still spinning when the fuel ran out. -/
inductive LoopRes (α : Type) where
  | ok (a : α)
  | err
  | spin
deriving DecidableEq, Repr

/-- Accumulated added/modified/removed lists of the single-item sync loop. -/
structure SyncAcc where
  added : List Tx
  modified : List Tx
  removed : List Tx
deriving DecidableEq, Repr

/-- Lines 242-254: the has_more cursor loop of POST /api/transactions/sync.
Each request sends `cursor || undefined`; the loop carries the latest
next_cursor and returns it together with the accumulated batches. -/
def syncLoop (up : Upstream) (tok : String) :
    Nat → Option String → SyncAcc → LoopRes (SyncAcc × String)
  | 0, _, _ => .spin
  | fuel+1, c, acc =>
    match up.transactionsSync tok (jsStr c) with
    | .error _ => .err
    | .ok d =>
      let acc2 : SyncAcc :=
        ⟨acc.added ++ d.added, acc.modified ++ d.modified,
          acc.removed ++ d.removed⟩
      if d.has_more then syncLoop up tok fuel (some d.next_cursor) acc2
      else .ok (acc2, d.next_cursor)

/-- Lines 270-283: the has_more cursor loop of POST /api/transactions/sync-all,
which accumulates counts instead of lists. -/
def syncLoopCnt (up : Upstream) (tok : String) :
    Nat → Option String → Nat × Nat × Nat → LoopRes ((Nat × Nat × Nat) × String)
  | 0, _, _ => .spin
  | fuel+1, c, acc =>
    match up.transactionsSync tok (jsStr c) with
    | .error _ => .err
    | .ok d =>
      let acc2 : Nat × Nat × Nat :=
        (acc.1 + d.added.length, acc.2.1 + d.modified.length,
          acc.2.2 + d.removed.length)
      if d.has_more then syncLoopCnt up tok fuel (some d.next_cursor) acc2
      else .ok (acc2, d.next_cursor)

/-- Per-item summary of sync-all (line 285). -/
structure ItemSummary where
  item_id : String
  added : Nat
  modified : Nat
  removed : Nat
deriving DecidableEq, Repr

/-- One entry of the balances handler response (lines 360-366): either the
item's accounts or an error entry for that item (error payload abstracted). -/
inductive BalEntry where
  | accounts (item_id : String) (accounts : List Account)
  | fail (item_id : String)
deriving DecidableEq, Repr

/-- HTTP responses produced by the embedded handlers. -/
inductive HResp where
  | status400 (err : String)
  | status401
  | status404 (err : String)
  | status500 (err : String)
  | syncOk (item_id : String) (added modified removed : Nat) (sample : List Tx)
  | syncAllOk (items : List ItemSummary) (total_added : Nat)
  | refreshOk (accounts transactions errors : Nat)
  | balancesOk (items : List BalEntry)
  | exchangeOk (item_id : String)
deriving DecidableEq, Repr

/-- Lines 232-261: POST /api/transactions/sync.  Missing (falsy) item_id is
400, unknown item is 404, a thrown sync call is the catch (500) with no
cursor write, and a completed loop persists the final cursor.  The returned
pair is the database after the request and the response (`none` when the
loop never finishes within the fuel, i.e. no response is ever sent). -/
def syncHandler (up : Upstream) (fuel : Nat) (db : DB)
    (body_item_id : Option String) : DB × Option HResp :=
  match jsStr body_item_id with
  | none => (db, some (.status400 "missing_item_id"))
  | some item_id =>
    match db.items.find? (fun x => x.item_id == item_id) with
    | none => (db, some (.status404 "unknown_item"))
    | some row =>
      match syncLoop up row.access_token fuel
          (getCursorVal db.cursors item_id) ⟨[], [], []⟩ with
      | .spin => (db, none)
      | .err => (db, some (.status500 "sync_failed"))
      | .ok (acc, cur) =>
        ({ db with cursors := upsertCursor db.cursors item_id cur },
          some (.syncOk item_id acc.added.length acc.modified.length
            acc.removed.length (acc.added.take 5)))

/-- Lines 266-286: the per-item loop of POST /api/transactions/sync-all.
There is no per-item try/catch: a thrown call propagates to the top-level
catch, keeping the cursor writes already made for earlier items. -/
def syncAllGo (up : Upstream) (fuel : Nat) :
    List Row → List (String × String) → List ItemSummary →
    List (String × String) × LoopRes (List ItemSummary)
  | [], cursors, summary => (cursors, .ok summary)
  | r :: rest, cursors, summary =>
    match syncLoopCnt up r.access_token fuel
        (getCursorVal cursors r.item_id) (0, 0, 0) with
    | .spin => (cursors, .spin)
    | .err => (cursors, .err)
    | .ok (cnt, cur) =>
      syncAllGo up fuel rest (upsertCursor cursors r.item_id cur)
        (summary ++ [⟨r.item_id, cnt.1, cnt.2.1, cnt.2.2⟩])

/-- Lines 264-292: POST /api/transactions/sync-all. -/
def syncAllHandler (up : Upstream) (fuel : Nat) (db : DB) : DB × Option HResp :=
  match syncAllGo up fuel db.items db.cursors [] with
  | (cs, .ok sm) =>
    ({ db with cursors := cs },
      some (.syncAllOk sm (sm.foldl (fun a b => a + b.added) 0)))
  | (cs, .err) => ({ db with cursors := cs }, some (.status500 "sync_all_failed"))
  | (cs, .spin) => ({ db with cursors := cs }, none)

/-- Lines 211-223: POST /api/exchange_public_token.  A falsy public_token is
400; a thrown exchange call is 500; otherwise the new row is inserted with
INSERT OR IGNORE semantics (`institution_name || null`, line 217). -/
def exchangeHandler (up : Upstream) (db : DB)
    (public_token institution_name : Option String) : DB × HResp :=
  match jsStr public_token with
  | none => (db, .status400 "missing_public_token")
  | some pt =>
    match up.itemPublicTokenExchange pt with
    | .error _ => (db, .status500 "exchange_failed")
    | .ok (access_token, item_id) =>
      ({ db with items :=
          insertItem db.items ⟨item_id, access_token, jsStr institution_name⟩ },
        .exchangeOk item_id)

/-- Line 360: the expression `b.data.accounts` in GET /api/balances references
the undefined variable `b`, so evaluating it always throws a ReferenceError
before any upstream balances call can be made. -/
def undefinedVarB : Except Unit (List Account) := .error ()

/-- Lines 359-367: one per-item entry of GET /api/balances: the primary branch
(evaluating the undefined variable) with its catch falling back to
accountsGet with defaulted balances, or an error entry. -/
def balancesEntryOf (up : Upstream) (r : Row) : BalEntry :=
  match undefinedVarB with
  | .ok accs => .accounts r.item_id accs
  | .error _ =>
    match up.accountsGet r.access_token with
    | .ok accs =>
      .accounts r.item_id
        (accs.map (fun x => { x with balances := some (x.balances.getD []) }))
    | .error _ => .fail r.item_id

/-- Lines 354-375: GET /api/balances over all stored items. -/
def balancesHandler (up : Upstream) (db : DB) : HResp :=
  .balancesOk (db.items.map (balancesEntryOf up))

/-- The fallback computation the specification describes for the balances
endpoint: accounts without balances with balances defaulted to the empty
object, or an error entry when that call also fails.  Stated from the spec
sentence for comparison with `balancesEntryOf`. -/
def balancesFallbackEntry (up : Upstream) (r : Row) : BalEntry :=
  match up.accountsGet r.access_token with
  | .ok accs =>
    .accounts r.item_id
      (accs.map (fun x => { x with balances := some (x.balances.getD []) }))
  | .error _ => .fail r.item_id

/-- A per-item snapshot entry of the dashboard refresh run (line 504). -/
structure ItemSnap where
  item_id : String
  accounts : List AccountOut
  transactions : List TxOut
  error : Option String
deriving DecidableEq, Repr

/-- Contents of web/dashboard_data.json as written on line 515. -/
structure DashData where
  last_updated : String
  accounts : List AccountOut
  transactions : List TxOut
  errors : List ItemSnap
deriving DecidableEq, Repr

/-- Lines 500-509: build the per-item snapshots sequentially.  `none` is a
run in which some item's pagination loop never finishes within the fuel. -/
def buildSnapshots (up : Upstream) (fuel : Nat) : List Row → Option (List ItemSnap)
  | [] => some []
  | r :: rest =>
    match fetchItemSnapshot up fuel r with
    | none => none
    | some s =>
      match buildSnapshots up fuel rest with
      | none => none
      | some l => some (⟨r.item_id, s.accounts, s.transactions, s.error⟩ :: l)

/-- Lines 486-489: the authorization check of POST /refresh_dashboard:
`!process.env.DASHBOARD_REFRESH_TOKEN || hdr !== process.env...`, where
`hdr = req.get(header) || ''`. -/
def authFails (envSecret hdr : Option String) : Bool :=
  match envSecret with
  | none => true
  | some s => s == "" || hdr.getD "" != s

/-- Lines 484-521: POST /refresh_dashboard.  On authorization failure the
handler returns 401 before touching the upstream or the file; otherwise it
builds all snapshots, concatenates them and fully replaces the dashboard
file.  The result is the file after the request and the response.  (The
best-effort transactionsRefresh loop of lines 493-497 ignores its results
and failures entirely, so it has no observable effect in the embedding.) -/
def refreshDashboardHandler (envSecret hdr : Option String) (now : String)
    (up : Upstream) (fuel : Nat) (db : DB) (file : Option DashData) :
    Option DashData × Option HResp :=
  if authFails envSecret hdr then (file, some .status401)
  else
    match buildSnapshots up fuel db.items with
    | none => (file, none)
    | some snaps =>
      let accounts := snaps.flatMap ItemSnap.accounts
      let transactions := snaps.flatMap ItemSnap.transactions
      let errs := snaps.filter (fun s => s.error.isSome)
      (some ⟨now, accounts, transactions, errs⟩,
        some (.refreshOk accounts.length transactions.length errs.length))

/-- Whether an upstream call threw. -/
def isErr {α : Type} (x : Except Unit α) : Bool :=
  match x with
  | .error _ => true
  | .ok _ => false

/-- Every successful page of the response sequence is non-empty (the
hypothesis of the pagination-termination claim). -/
def allPagesNonempty (pageAt : Nat → Except Unit TxPage) : Prop :=
  ∀ o p, pageAt o = .ok p → p.transactions ≠ []

/-- The pagination loop runs forever on this response sequence: no fuel
suffices from any state. -/
def txFetchDiverges (pageAt : Nat → Except Unit TxPage) : Prop :=
  ∀ fuel offset acc, txFetch pageAt fuel offset acc = none

/-- Concrete rows, accounts and transactions used to instantiate theorems. -/
def rowA : Row := ⟨"itemA", "tokA", none⟩

def rowB : Row := ⟨"itemB", "tokB", none⟩

def row0 : Row := ⟨"item0", "tok0", some "First Bank"⟩

def acct0 : Account := ⟨"acc0", none, none, none, none, none, none⟩

def acct1 : Account :=
  ⟨"acc1", some "Checking", some "Official", none, none, none, none⟩

def tx0 : Tx := ⟨"acc0", "2024-01-01", some "t", none, none, 3, none⟩

def txC8 : Tx := ⟨"acc1", "2024-02-02", some "Coffee", none, none, -4, none⟩

/-- An upstream on which every call throws. -/
def upFail : Upstream :=
  { accountsBalanceGet := fun _ => .error ()
    accountsGet := fun _ => .error ()
    liabilitiesGet := fun _ => .error ()
    transactionsGet := fun _ _ => .error ()
    transactionsSync := fun _ _ => .error ()
    transactionsRefresh := fun _ => .error ()
    itemPublicTokenExchange := fun _ => .error () }

/-- A consistent paginated server: total 3, one transaction per page. -/
def pagesW : Nat → Except Unit TxPage := fun _ => .ok ⟨3, [tx0]⟩

/-- An adversarial paginated server whose reported total grows with the
offset: every page is non-empty, yet the accumulated count never catches
up with the latest reported total. -/
def badPages : Nat → Except Unit TxPage := fun o => .ok ⟨o + 2, [tx0]⟩

/-- Upstream whose incremental sync succeeds for tokB and throws otherwise. -/
def upC2 : Upstream :=
  { upFail with transactionsSync := fun tok _ =>
      if tok = "tokB" then .ok ⟨[], [], [], "curB", false⟩ else .error () }

def dbC2 : DB := ⟨[rowA, rowB], []⟩

def db3 : DB := ⟨[rowA], [("itemA", "c0")]⟩

/-- Upstream with accounts available but liabilities and transactions failing. -/
def up5 : Upstream := { upFail with accountsBalanceGet := fun _ => .ok [acct0] }

/-- Upstream with only the accounts-without-balances fallback available. -/
def up6 : Upstream := { upFail with accountsGet := fun _ => .ok [acct0] }

/-- Upstream delivering one account (with both name and official_name) and
one transaction on that account. -/
def upC8 : Upstream :=
  { upFail with
    accountsBalanceGet := fun _ => .ok [acct1]
    transactionsGet := fun _ _ => .ok ⟨1, [txC8]⟩ }

def db9 : DB := ⟨[rowA], []⟩

/-- A row whose item_id collides with rowA. -/
def rowA2 : Row := ⟨"itemA", "tok2", none⟩

/-- The reshaped record of acct0 under institution name "First Bank" with an
empty liability map. -/
def acctOut0 : AccountOut := ⟨"First Bank", "acc0", "", "", "", "", [], none⟩

/-- The snapshot produced for row0 when accounts resolve to [acct0] and both
liabilities and transactions fail. -/
def snap5 : Snapshot := ⟨[acctOut0], [], none⟩

/-- Unfolding step of the pagination loop on a successful response. -/
theorem txFetch_ok_step (pageAt : Nat → Except Unit TxPage) (fuel offset : Nat)
    (acc : List Tx) (p : TxPage) (hp : pageAt offset = .ok p) :
    txFetch pageAt (fuel + 1) offset acc =
      if offset + p.transactions.length < p.total_transactions then
        txFetch pageAt fuel (offset + p.transactions.length)
          (acc ++ p.transactions)
      else some (acc ++ p.transactions) := by
  rw [txFetch, hp]

/-- Unfolding step of the page concatenation on a successful response. -/
theorem pagesFrom_ok_step (pageAt : Nat → Except Unit TxPage) (n o : Nat)
    (p : TxPage) (hp : pageAt o = .ok p) :
    pagesFrom pageAt (n + 1) o =
      p.transactions ++ pagesFrom pageAt n (o + p.transactions.length) := by
  rw [pagesFrom, hp]

/-- With every response successful, a finished pagination run is the
concatenation of at least one fetched page, starting from the initial
accumulator. -/
theorem txFetch_pages (pageAt : Nat → Except Unit TxPage)
    (hok : ∀ o, ∃ p, pageAt o = .ok p) :
    ∀ fuel offset acc out, txFetch pageAt fuel offset acc = some out →
      ∃ n, 1 ≤ n ∧ out = acc ++ pagesFrom pageAt n offset := by
  intro fuel
  induction fuel with
  | zero => intro offset acc out h; simp [txFetch] at h
  | succ m ih =>
    intro offset acc out h
    obtain ⟨p, hp⟩ := hok offset
    rw [txFetch_ok_step pageAt m offset acc p hp] at h
    by_cases hc : offset + p.transactions.length < p.total_transactions
    · rw [if_pos hc] at h
      obtain ⟨n, hn1, hn2⟩ := ih _ _ _ h
      refine ⟨n + 1, by omega, ?_⟩
      rw [hn2, pagesFrom_ok_step pageAt n offset p hp, List.append_assoc]
    · rw [if_neg hc] at h
      cases h
      refine ⟨1, le_refl 1, ?_⟩
      rw [pagesFrom_ok_step pageAt 0 offset p hp]
      simp [pagesFrom]

/-- With every response successful and every response reporting the common
total `T`, a finished pagination run has accumulated at least `T`
transactions beyond its starting offset. -/
theorem txFetch_count (pageAt : Nat → Except Unit TxPage) (T : Nat)
    (hok : ∀ o, ∃ p, pageAt o = .ok p)
    (htot : ∀ o p, pageAt o = .ok p → p.total_transactions = T) :
    ∀ fuel offset acc out, txFetch pageAt fuel offset acc = some out →
      T + acc.length ≤ offset + out.length := by
  intro fuel
  induction fuel with
  | zero => intro offset acc out h; simp [txFetch] at h
  | succ m ih =>
    intro offset acc out h
    obtain ⟨p, hp⟩ := hok offset
    rw [txFetch_ok_step pageAt m offset acc p hp] at h
    by_cases hc : offset + p.transactions.length < p.total_transactions
    · rw [if_pos hc] at h
      have := ih _ _ _ h
      simp only [List.length_append] at this
      omega
    · rw [if_neg hc] at h
      have hT := htot offset p hp
      have hout : out = acc ++ p.transactions := (Option.some_inj.mp h).symm
      rw [hout]
      simp only [List.length_append]
      omega

/-- Under a common reported total `T`, with every page below `T` non-empty,
fuel `T + 1` is enough for the pagination loop to finish. -/
theorem txFetch_terminates (pageAt : Nat → Except Unit TxPage) (T : Nat)
    (hok : ∀ o, ∃ p, pageAt o = .ok p)
    (htot : ∀ o p, pageAt o = .ok p → p.total_transactions = T)
    (hne : ∀ o p, o < T → pageAt o = .ok p → p.transactions ≠ []) :
    ∀ fuel offset acc, T ≤ offset + fuel →
      ∃ out, txFetch pageAt (fuel + 1) offset acc = some out := by
  intro fuel
  induction fuel with
  | zero =>
    intro offset acc hT
    obtain ⟨p, hp⟩ := hok offset
    refine ⟨acc ++ p.transactions, ?_⟩
    rw [txFetch_ok_step pageAt 0 offset acc p hp, if_neg]
    rw [htot offset p hp]
    omega
  | succ m ih =>
    intro offset acc hT
    obtain ⟨p, hp⟩ := hok offset
    by_cases hc : offset + p.transactions.length < p.total_transactions
    · have hoT : offset < T := by
        have := htot offset p hp
        omega
      have hlen : 1 ≤ p.transactions.length := by
        rcases hq : p.transactions with _ | ⟨a, l⟩
        · exact absurd hq (hne offset p hoT hp)
        · simp
      obtain ⟨out, hout⟩ := ih (offset + p.transactions.length)
        (acc ++ p.transactions) (by omega)
      refine ⟨out, ?_⟩
      rw [txFetch_ok_step pageAt (m + 1) offset acc p hp, if_pos hc]
      exact hout
    · exact ⟨acc ++ p.transactions,
        by rw [txFetch_ok_step pageAt (m + 1) offset acc p hp, if_neg hc]⟩

/-- C1: the pagination loop of the snapshot builder (page size fixed, offset
advanced by the number of returned transactions, looping while the
accumulated count is below the latest reported total) terminates within
total + 1 pages whenever all responses succeed, report one common total,
and return a non-empty page below that total; the accumulated list reaches
the total and is exactly the concatenation of the fetched pages, the final
page included.  (This is the claim amended by the counterexample: without a
common reported total the loop can run forever.) -/
theorem C1_theorem (pageAt : Nat → Except Unit TxPage) (T : Nat)
    (hok : ∀ o, ∃ p, pageAt o = .ok p)
    (htot : ∀ o p, pageAt o = .ok p → p.total_transactions = T)
    (hne : ∀ o p, o < T → pageAt o = .ok p → p.transactions ≠ []) :
    ∃ out, txFetch pageAt (T + 1) 0 [] = some out ∧ T ≤ out.length ∧
      ∃ n, 1 ≤ n ∧ out = pagesFrom pageAt n 0 := by
  obtain ⟨out, hout⟩ :=
    txFetch_terminates pageAt T hok htot hne T 0 [] (by omega)
  refine ⟨out, hout, ?_, ?_⟩
  · have := txFetch_count pageAt T hok htot (T + 1) 0 [] out hout
    simpa using this
  · obtain ⟨n, h1, h2⟩ := txFetch_pages pageAt hok (T + 1) 0 [] out hout
    exact ⟨n, h1, by simpa using h2⟩

/-- Witness for C1 at a concrete server: total 3, one transaction per page. -/
theorem C1_witness :
    ∃ out, txFetch pagesW 4 0 [] = some out ∧ 3 ≤ out.length ∧
      ∃ n, 1 ≤ n ∧ out = pagesFrom pagesW n 0 :=
  C1_theorem pagesW 3 (fun _ => ⟨⟨3, [tx0]⟩, rfl⟩)
    (fun o p h => by
      have : (⟨3, [tx0]⟩ : TxPage) = p := Except.ok.inj h
      rw [← this])
    (fun o p ho h => by
      have : (⟨3, [tx0]⟩ : TxPage) = p := Except.ok.inj h
      rw [← this]
      simp)

/-- Counterexample to C1 as frozen: an upstream whose every page is
non-empty but whose reported total grows with the offset makes the loop
run forever, because the code re-reads the total from every response. -/
theorem C1_counterexample : allPagesNonempty badPages ∧ txFetchDiverges badPages := by
  constructor
  · intro o p h
    have : (⟨o + 2, [tx0]⟩ : TxPage) = p := Except.ok.inj h
    rw [← this]
    simp
  · intro fuel
    induction fuel with
    | zero => intro offset acc; rfl
    | succ n ih =>
      intro offset acc
      rw [txFetch_ok_step badPages n offset acc ⟨offset + 2, [tx0]⟩ rfl,
        if_pos (by simp)]
      exact ih _ _

/-- A snapshot produced through snapshotCore is the reshape of the given
accounts and of the transactions the pagination loop accumulated, with no
error marker. -/
theorem snapshotCore_eq (up : Upstream) (fuel : Nat) (row : Row)
    (accs : List Account) (snap : Snapshot)
    (h : snapshotCore up fuel row accs = some snap) :
    ∃ tx, txFetch (up.transactionsGet row.access_token) fuel 0 [] = some tx ∧
      snap = { accounts := accs.map
                 (shapeAccount (firstTruthy [row.institution_name] "")
                   (liabMapOf up row.access_token))
               transactions := tx.map
                 (shapeTx (firstTruthy [row.institution_name] "") accs)
               error := none } := by
  unfold snapshotCore at h
  rcases htx : txFetch (up.transactionsGet row.access_token) fuel 0 [] with _ | tx
  · simp only [htx] at h
    exact Option.noConfusion h
  · simp only [htx, Option.some.injEq] at h
    exact ⟨tx, rfl, h.symm⟩

/-- Mapping a function over a list is pointwise related to the list itself. -/
theorem forall2_map_self {α β : Type} (l : List α) (f : α → β)
    (R : β → α → Prop) (h : ∀ a ∈ l, R (f a) a) :
    List.Forall₂ R (l.map f) l := by
  induction l with
  | nil => exact List.Forall₂.nil
  | cons a t ih =>
    exact List.Forall₂.cons (h a (List.mem_cons_self a t))
      (ih (fun x hx => h x (List.mem_cons_of_mem a hx)))

/-- C4: the snapshot builder result carries an error marker exactly when
both the accounts-with-balances fetch and the accounts-without-balances
fallback throw, and in that case the result is exactly empty accounts,
empty transactions and the marker accounts_failed; liabilities or
transaction failures never put a marker in the result. -/
theorem C4_theorem (up : Upstream) (fuel : Nat) (row : Row) :
    ((isErr (up.accountsBalanceGet row.access_token) = true ∧
      isErr (up.accountsGet row.access_token) = true) →
      fetchItemSnapshot up fuel row = some ⟨[], [], some "accounts_failed"⟩) ∧
    (∀ snap, fetchItemSnapshot up fuel row = some snap →
      (snap.error.isSome = true ↔
        (isErr (up.accountsBalanceGet row.access_token) = true ∧
         isErr (up.accountsGet row.access_token) = true))) := by
  rcases h1 : up.accountsBalanceGet row.access_token with e1 | accs
  · rcases h2 : up.accountsGet row.access_token with e2 | accs2
    · constructor
      · intro _
        unfold fetchItemSnapshot
        simp only [h1, h2]
      · intro snap hs
        unfold fetchItemSnapshot at hs
        simp only [h1, h2, Option.some.injEq] at hs
        rw [← hs]
        simp [isErr, h1, h2]
    · constructor
      · intro hboth
        simp [isErr] at hboth
      · intro snap hs
        unfold fetchItemSnapshot at hs
        simp only [h1, h2] at hs
        obtain ⟨tx, htx, rfl⟩ := snapshotCore_eq up fuel row _ _ hs
        simp [isErr, h2]
  · constructor
    · intro hboth
      simp [isErr] at hboth
    · intro snap hs
      unfold fetchItemSnapshot at hs
      simp only [h1] at hs
      obtain ⟨tx, htx, rfl⟩ := snapshotCore_eq up fuel row _ _ hs
      simp [isErr, h1]

/-- Witness for C4 at the all-failing upstream: the snapshot is exactly the
empty result with the accounts_failed marker, and it carries the marker. -/
theorem C4_witness :
    fetchItemSnapshot upFail 1 row0 = some ⟨[], [], some "accounts_failed"⟩ ∧
    (Snapshot.error ⟨[], [], some "accounts_failed"⟩).isSome = true :=
  ⟨(C4_theorem upFail 1 row0).1 ⟨rfl, rfl⟩,
   ((C4_theorem upFail 1 row0).2 ⟨[], [], some "accounts_failed"⟩
      ((C4_theorem upFail 1 row0).1 ⟨rfl, rfl⟩)).mpr ⟨rfl, rfl⟩⟩

/-- C5: if the liabilities fetch throws while the accounts step succeeded,
every reshaped account record has a null liability field and the snapshot
carries no error marker. -/
theorem C5_theorem (up : Upstream) (fuel : Nat) (row : Row) (snap : Snapshot)
    (hacc : isErr (up.accountsBalanceGet row.access_token) = false ∨
            isErr (up.accountsGet row.access_token) = false)
    (hliab : up.liabilitiesGet row.access_token = .error ())
    (h : fetchItemSnapshot up fuel row = some snap) :
    snap.error = none ∧ ∀ a ∈ snap.accounts, a.liability = none := by
  have hmap : liabMapOf up row.access_token = [] := by
    unfold liabMapOf
    rw [hliab]
  rcases h1 : up.accountsBalanceGet row.access_token with e1 | accs
  · rcases h2 : up.accountsGet row.access_token with e2 | accs2
    · exfalso
      rcases hacc with ha | hb
      · rw [h1] at ha
        simp [isErr] at ha
      · rw [h2] at hb
        simp [isErr] at hb
    · unfold fetchItemSnapshot at h
      simp only [h1, h2] at h
      obtain ⟨tx, htx, rfl⟩ := snapshotCore_eq up fuel row _ _ h
      refine ⟨rfl, ?_⟩
      intro a ha
      simp only [List.mem_map] at ha
      obtain ⟨x, hx, rfl⟩ := ha
      simp [shapeAccount, hmap, liabLookup]
  · unfold fetchItemSnapshot at h
    simp only [h1] at h
    obtain ⟨tx, htx, rfl⟩ := snapshotCore_eq up fuel row _ _ h
    refine ⟨rfl, ?_⟩
    intro a ha
    simp only [List.mem_map] at ha
    obtain ⟨x, hx, rfl⟩ := ha
    simp [shapeAccount, hmap, liabLookup]

/-- Witness for C5: accounts succeed, liabilities throw; the one reshaped
account record has a null liability and the snapshot has no marker. -/
theorem C5_witness : snap5.error = none ∧ acctOut0.liability = none :=
  ⟨(C5_theorem up5 1 row0 snap5 (Or.inl rfl) rfl rfl).1,
   (C5_theorem up5 1 row0 snap5 (Or.inl rfl) rfl rfl).2 acctOut0
     (by simp [snap5])⟩

/-- C6: if the accounts-with-balances fetch throws but the fallback
accounts-without-balances call succeeds, the reshaped account records are
in one-to-one correspondence with the fetched accounts, each carrying a
balances field equal to the source balances defaulted to the empty object. -/
theorem C6_theorem (up : Upstream) (fuel : Nat) (row : Row)
    (accs : List Account) (snap : Snapshot)
    (h1 : up.accountsBalanceGet row.access_token = .error ())
    (h2 : up.accountsGet row.access_token = .ok accs)
    (h : fetchItemSnapshot up fuel row = some snap) :
    List.Forall₂ (fun (rOut : AccountOut) (src : Account) =>
      rOut.balances = src.balances.getD []) snap.accounts accs := by
  unfold fetchItemSnapshot at h
  simp only [h1, h2] at h
  obtain ⟨tx, htx, rfl⟩ := snapshotCore_eq up fuel row _ _ h
  simp only [List.map_map]
  exact forall2_map_self accs _ _ (fun a ha => by simp [shapeAccount])

/-- Witness for C6 at a concrete upstream: the single account without a
balances object is reshaped with an empty balances object. -/
theorem C6_witness :
    List.Forall₂ (fun (rOut : AccountOut) (src : Account) =>
      rOut.balances = src.balances.getD []) snap5.accounts [acct0] :=
  C6_theorem up6 1 row0 [acct0] snap5 rfl rfl rfl

/-- C8 (amended): in the reshaping step, a transaction whose account
identifier matches an account takes as nickname the account's name falling
back to its official name then the empty string (not the reshaped account
record's nickname field, which is the official name alone), and the
transaction name falls back through name, merchant name, payee. -/
theorem C8_theorem (instName : String) (accounts : List Account) (t : Tx)
    (a : Account) (h : acctMapGet accounts t.account_id = some a) :
    (shapeTx instName accounts t).nickname =
      firstTruthy [a.name, a.official_name] "" ∧
    (shapeTx instName accounts t).name =
      firstTruthy [t.name, t.merchant_name, t.payee] "" := by
  constructor <;> simp [shapeTx, h]

/-- Witness for C8 at the concrete account and transaction. -/
theorem C8_witness :
    (shapeTx "First Bank" [acct1] txC8).nickname =
      firstTruthy [acct1.name, acct1.official_name] "" ∧
    (shapeTx "First Bank" [acct1] txC8).name =
      firstTruthy [txC8.name, txC8.merchant_name, txC8.payee] "" :=
  C8_theorem "First Bank" [acct1] txC8 acct1 rfl

/-- Counterexample to C8 as frozen: on an account whose name and official
name differ, the reshaped transaction nickname (name over official name) is
not the reshaped account record's nickname (official name). -/
theorem C8_counterexample :
    (fetchItemSnapshot upC8 1 row0).map
        (fun s => (s.accounts.map AccountOut.nickname,
          s.transactions.map TxOut.nickname)) =
      some (["Official"], ["Checking"]) ∧
    ("Checking" : String) ≠ "Official" := by
  constructor
  · rfl
  · decide

/-- C3: if any call inside the single-item sync loop throws, the handler
answers 500 and the database — in particular the stored cursor of that item
— is exactly what it was before the request. -/
theorem C3_theorem (up : Upstream) (fuel : Nat) (db : DB) (item_id : String)
    (row : Row) (hid : item_id ≠ "")
    (hfind : db.items.find? (fun x => x.item_id == item_id) = some row)
    (herr : syncLoop up row.access_token fuel
      (getCursorVal db.cursors item_id) ⟨[], [], []⟩ = .err) :
    syncHandler up fuel db (some item_id) =
      (db, some (.status500 "sync_failed")) := by
  have hjs : jsStr (some item_id) = some item_id := by
    simp only [jsStr]
    rw [if_neg hid]
  simp only [syncHandler, hjs, hfind, herr]

/-- Witness for C3: a stored cursor, an upstream whose sync call throws; the
handler answers 500 with the database unchanged. -/
theorem C3_witness :
    syncHandler upFail 1 db3 (some "itemA") =
      (db3, some (.status500 "sync_failed")) :=
  C3_theorem upFail 1 db3 "itemA" rowA (by decide) rfl rfl

/-- Splitting the sync-all item loop at a list split: the tail runs exactly
when the front finished cleanly, from the front's cursor state. -/
theorem syncAllGo_append (up : Upstream) (fuel : Nat) (l1 l2 : List Row)
    (cs : List (String × String)) (sm : List ItemSummary) :
    syncAllGo up fuel (l1 ++ l2) cs sm =
      match syncAllGo up fuel l1 cs sm with
      | (cs1, .ok sm1) => syncAllGo up fuel l2 cs1 sm1
      | (cs1, .err) => (cs1, .err)
      | (cs1, .spin) => (cs1, .spin) := by
  induction l1 generalizing cs sm with
  | nil => rfl
  | cons r rest ih =>
    show syncAllGo up fuel (r :: (rest ++ l2)) cs sm = _
    cases hl : syncLoopCnt up r.access_token fuel
        (getCursorVal cs r.item_id) (0, 0, 0) with
    | ok v =>
      cases v with
      | mk cnt cur =>
        simp only [syncAllGo, hl]
        exact ih _ _
    | err => simp only [syncAllGo, hl]
    | spin => simp only [syncAllGo, hl]

/-- C2 (amended): in sync-all, when the sync of one item throws — the items
before it in the list having completed and persisted cursor state cs1 — the
whole batch aborts: the handler answers 500, the cursors table stays at cs1,
so no later item is synced and no later cursor is persisted. -/
theorem C2_theorem (up : Upstream) (fuel : Nat) (db : DB) (pre : List Row)
    (r : Row) (rest : List Row) (cs1 : List (String × String))
    (sm1 : List ItemSummary)
    (hitems : db.items = pre ++ r :: rest)
    (hpre : syncAllGo up fuel pre db.cursors [] = (cs1, .ok sm1))
    (hfail : syncLoopCnt up r.access_token fuel (getCursorVal cs1 r.item_id)
      (0, 0, 0) = .err) :
    syncAllHandler up fuel db =
      ({ db with cursors := cs1 }, some (.status500 "sync_all_failed")) := by
  unfold syncAllHandler
  rw [hitems, syncAllGo_append, hpre]
  simp only [syncAllGo, hfail]

/-- Witness for C2 (amended): first item's sync throws at once; the batch
aborts with 500 and the cursor state from before the failure. -/
theorem C2_witness :
    syncAllHandler upC2 1 dbC2 =
      ({ dbC2 with cursors := ([] : List (String × String)) },
        some (.status500 "sync_all_failed")) :=
  C2_theorem upC2 1 dbC2 [] rowA [rowB] [] [] rfl rfl rfl

/-- Counterexample to C2 as frozen: with two stored items where the first
item's sync throws and the second item's sync would succeed (returning
cursor curB), the batch answers 500 and the second item has no cursor
persisted — the later item was not synced. -/
theorem C2_counterexample :
    syncAllHandler upC2 1 dbC2 = (dbC2, some (.status500 "sync_all_failed")) ∧
    syncLoopCnt upC2 "tokB" 1 none (0, 0, 0) = .ok ((0, 0, 0), "curB") ∧
    getCursorVal (syncAllHandler upC2 1 dbC2).1.cursors "itemB" = none :=
  ⟨rfl, rfl, rfl⟩

/-- C7: a dashboard-refresh request whose shared-secret header differs from
the configured secret is answered 401 and the dashboard file is returned
unchanged, whatever the upstream is (so no upstream call can influence or
be recorded in the result). -/
theorem C7_theorem (envSecret hdr : Option String) (s now : String)
    (up : Upstream) (fuel : Nat) (db : DB) (file : Option DashData)
    (henv : envSecret = some s) (hne : hdr.getD "" ≠ s) :
    refreshDashboardHandler envSecret hdr now up fuel db file =
      (file, some .status401) := by
  have hauth : authFails envSecret hdr = true := by
    rw [henv]
    unfold authFails
    simp [hne]
  unfold refreshDashboardHandler
  simp [hauth]

/-- Witness for C7 at a concrete wrong header. -/
theorem C7_witness :
    refreshDashboardHandler (some "s3cret") (some "wrong") "2026-01-01"
      upFail 1 db9 none = (none, some .status401) :=
  C7_theorem (some "s3cret") (some "wrong") "s3cret" "2026-01-01"
    upFail 1 db9 none rfl (by decide)

/-- The single-item sync handler never touches the items table. -/
theorem syncHandler_items (up : Upstream) (fuel : Nat) (db : DB)
    (bid : Option String) : (syncHandler up fuel db bid).1.items = db.items := by
  unfold syncHandler
  split
  · rfl
  · split
    · rfl
    · split <;> rfl

/-- The sync-all handler never touches the items table. -/
theorem syncAllHandler_items (up : Upstream) (fuel : Nat) (db : DB) :
    (syncAllHandler up fuel db).1.items = db.items := by
  unfold syncAllHandler
  split <;> rfl

/-- A duplicate insert-or-ignore leaves the items table unchanged. -/
theorem insertItem_dup (items : List Row) (r : Row)
    (h : items.any (fun x => x.item_id == r.item_id) = true) :
    insertItem items r = items := by
  unfold insertItem
  rw [if_pos h]

/-- Insert-or-ignore preserves uniqueness of item identifiers. -/
theorem insertItem_nodup (items : List Row) (r : Row)
    (h : (items.map Row.item_id).Nodup) :
    ((insertItem items r).map Row.item_id).Nodup := by
  unfold insertItem
  by_cases hc : items.any (fun x => x.item_id == r.item_id) = true
  · rw [if_pos hc]
    exact h
  · rw [if_neg hc, List.map_append]
    refine List.Nodup.append h (List.nodup_singleton _) ?_
    intro y hy hy1
    simp only [List.map_cons, List.map_nil, List.mem_singleton] at hy1
    subst hy1
    simp only [List.mem_map] at hy
    obtain ⟨x, hx, hxe⟩ := hy
    simp only [List.any_eq_true, beq_iff_eq] at hc
    exact hc ⟨x, hx, hxe⟩

/-- C9: the items store keeps at most one row per item identifier: a
credential exchange preserves uniqueness, an exchange hitting an existing
item identifier leaves the store unchanged (the insert is dropped), and the
sync operations (the only other database-writing handlers) never insert or
modify items rows. -/
theorem C9_theorem (up : Upstream) (fuel : Nat) (db : DB)
    (pt inn bid : Option String) (r : Row)
    (hinv : (db.items.map Row.item_id).Nodup)
    (hdup : db.items.any (fun x => x.item_id == r.item_id) = true) :
    ((exchangeHandler up db pt inn).1.items.map Row.item_id).Nodup ∧
    insertItem db.items r = db.items ∧
    (syncHandler up fuel db bid).1.items = db.items ∧
    (syncAllHandler up fuel db).1.items = db.items := by
  refine ⟨?_, insertItem_dup db.items r hdup, syncHandler_items up fuel db bid,
    syncAllHandler_items up fuel db⟩
  unfold exchangeHandler
  split
  · exact hinv
  · split
    · exact hinv
    · exact insertItem_nodup db.items _ hinv

/-- Witness for C9: one stored item and a colliding row. -/
theorem C9_witness :
    ((exchangeHandler upFail db9 none none).1.items.map Row.item_id).Nodup ∧
    insertItem db9.items rowA2 = db9.items ∧
    (syncHandler upFail 1 db9 none).1.items = db9.items ∧
    (syncAllHandler upFail 1 db9).1.items = db9.items :=
  C9_theorem upFail 1 db9 none none none rowA2 (by decide) (by decide)

/-- C10: the balances endpoint's primary branch always throws (it evaluates
the undefined variable b), so every per-item entry is exactly the fallback
computation — accounts without balances with balances defaulted to the
empty object, or an error entry — and no balances-specific upstream call
contributes to any entry. -/
theorem C10_theorem (up : Upstream) (db : DB) :
    balancesHandler up db =
      .balancesOk (db.items.map (balancesFallbackEntry up)) := rfl
